import Mathlib

/-!
Verification of the fridge-kiosk plugin runtime against its specification.

The development shallowly embeds the relevant Python source files:

* `src/plugins/google-photos/main.py` — the cache-with-TTL and
  exponential-backoff controller (namespace `GooglePhotos`);
* `src/backend/run.py` — the request dispatcher in
  `KioskHTTPRequestHandler.do_GET` and its path parsing (namespace `Backend`);
* `src/backend/plugin_loader.py` — the plugin loader (namespace `PluginLoader`).

Machine integers are embedded as `Int`/`Nat` (Python integers are unbounded,
so no wrap-around modelling is needed); wall-clock times are `Int` epoch
seconds; fallible file reads are embedded as explicit file-state sum types.
-/

namespace GooglePhotos

/-- Constant `DEFAULT_REFRESH_INTERVAL = 300` from main.py line 25. -/
def DEFAULT_REFRESH_INTERVAL : Int := 300

/-- Constant `MAX_REFRESH_INTERVAL = 3600` from main.py line 26. -/
def MAX_REFRESH_INTERVAL : Int := 3600

/-- Constant `ERROR_BACKOFF_MULTIPLIER = 2` from main.py line 27. -/
def ERROR_BACKOFF_MULTIPLIER : Int := 2

/-- Constant `MAX_CONSECUTIVE_ERRORS = 10` from main.py line 28. -/
def MAX_CONSECUTIVE_ERRORS : Nat := 10

/-- Constant `CACHE_EXPIRY = 90 * 24 * 3600` from main.py line 21. -/
def CACHE_EXPIRY : Int := 90 * 24 * 3600

/-- State persisted in `error_state.json`: the dict written by
`record_api_success` / `record_api_error` (main.py lines 401-406, 437-442). -/
structure ErrorState where
  consecutive_errors : Nat
  last_error_time : Int
  current_interval : Int
  last_error_type : Option String
deriving DecidableEq

/-- Possible observable states of the `error_state.json` file as seen by
`load_error_state`: missing, unreadable (open raises), syntactically invalid
JSON (json.load raises), or a well-formed persisted state. -/
inductive ErrorFile where
  | absent
  | unreadable
  | invalidJson
  | valid (state : ErrorState)
deriving DecidableEq

/-- Embeds `load_error_state` (main.py lines 392-406): returns the parsed file
content when the file exists and parses, and otherwise (missing file or any
exception while opening/parsing) returns the default dict with
`consecutive_errors = 0`, `last_error_time = 0`,
`current_interval = DEFAULT_REFRESH_INTERVAL`, `last_error_type = None`. -/
def load_error_state : ErrorFile → ErrorState
  | .valid s => s
  | _ => ⟨0, 0, DEFAULT_REFRESH_INTERVAL, none⟩

/-- Embeds `should_skip_due_to_errors` (main.py lines 417-433). It loads the
error state and returns the tuple `(should_skip, error_state)`: skip is
requested only when `consecutive_errors` is nonzero, has reached
`MAX_CONSECUTIVE_ERRORS`, and the current backoff interval has not yet
elapsed since the last failure. -/
def should_skip_due_to_errors (ef : ErrorFile) (now : Int) : Bool × ErrorState :=
  let error_state := load_error_state ef
  if error_state.consecutive_errors = 0 then
    (false, error_state)
  else if MAX_CONSECUTIVE_ERRORS ≤ error_state.consecutive_errors ∧
      now - error_state.last_error_time < error_state.current_interval then
    (true, error_state)
  else
    (false, error_state)

/-- Embeds `record_api_success` (main.py lines 435-444): the reset state it
writes to `error_state.json` (it does not read the previous state). -/
def record_api_success : ErrorState :=
  ⟨0, 0, DEFAULT_REFRESH_INTERVAL, none⟩

/-- Embeds `record_api_error` (main.py lines 446-469): loads the persisted
state, increments `consecutive_errors`, stamps the failure time and kind, and
recomputes `current_interval = min(DEFAULT_REFRESH_INTERVAL *
ERROR_BACKOFF_MULTIPLIER ** consecutive_errors, MAX_REFRESH_INTERVAL)` — but
only while `consecutive_errors <= MAX_CONSECUTIVE_ERRORS`; beyond that the
interval is left unchanged. Returns the state it saves. -/
def record_api_error (ef : ErrorFile) (now : Int) (error_type : String) : ErrorState :=
  let error_state := load_error_state ef
  let c := error_state.consecutive_errors + 1
  { consecutive_errors := c
    last_error_time := now
    last_error_type := some error_type
    current_interval :=
      if c ≤ MAX_CONSECUTIVE_ERRORS then
        min (DEFAULT_REFRESH_INTERVAL * ERROR_BACKOFF_MULTIPLIER ^ c) MAX_REFRESH_INTERVAL
      else
        error_state.current_interval }

/-- The backoff state after `n` consecutive `record_api_error` calls starting
from a clean state (no `error_state.json` on disk), the i-th failure occurring
at time `ts i`; each call loads the state the previous call saved. -/
def afterFailures (ts : Nat → Int) : Nat → ErrorState
  | 0 => load_error_state .absent
  | n + 1 => record_api_error (.valid (afterFailures ts n)) (ts n) "api_error"

/-- The skip predicate exactly as the specification words it (spec section 4.5):
true iff `consecutiveFailures >= 1` and `now - lastFailureAt <
currentIntervalSeconds`. Stated only to be compared against the source
function `should_skip_due_to_errors`. -/
def specShouldSkip (s : ErrorState) (now : Int) : Bool :=
  decide (1 ≤ s.consecutive_errors) && decide (now - s.last_error_time < s.current_interval)

/-- Observable states of the `photos_cache.json` file: missing, unreadable or
unparsable (an exception inside the try block), or a stored payload with its
optional `timestamp` field (read back with `cache.get('timestamp', 0)`). -/
inductive CacheFile (α : Type) where
  | absent
  | corrupt
  | entry (value : α) (timestamp : Option Int)
deriving DecidableEq

/-- Embeds `load_cache` (main.py lines 35-49), with the module constant
`CACHE_EXPIRY` abstracted as the `expiry` argument: returns the stored entry
when the file exists, parses, and `now - timestamp < expiry`; returns `none`
(Python `None`) for a missing file, a parse error, or an expired entry. -/
def load_cache {α : Type} (expiry : Int) (file : CacheFile α) (now : Int) :
    Option (α × Option Int) :=
  match file with
  | .entry v ts => if now - ts.getD 0 < expiry then some (v, ts) else none
  | _ => none

/-- Embeds `save_cache` (main.py lines 51-59): unconditionally overwrites the
cache file with the payload stamped `timestamp = now`. -/
def save_cache {α : Type} (value : α) (now : Int) : CacheFile α :=
  .entry value (some now)

/-- Opaque media item returned by the Google Photos fetch. -/
abbrev Photo := String

/-- Outcome of `get_random_photo_batch()` as observed by `api_data`: either a
(list of) photos — possibly empty — or a raised exception with its message. -/
inductive FetchOutcome where
  | returns (photos : List Photo)
  | raises (msg : String)
deriving DecidableEq

/-- The four JSON shapes `api_data` can return (main.py lines 316-361):
`skipErr c r` is the dict `{'error': ..., 'retry_after': r}` built in the
skip branch (whose message mentions the `c` consecutive errors), `noPhotos`
is `{'error': 'No photos available'}`, `media ps` is `{'media': ps}`, and
`apiErr m` is `{'error': m}` from the exception handler. -/
inductive ApiDataResult where
  | skipErr (consecutive : Nat) (retryAfter : Int)
  | noPhotos
  | media (photos : List Photo)
  | apiErr (msg : String)
deriving DecidableEq

/-- True exactly for the `{'media': ...}` response: the only `api_data`
response shape that carries photo data. -/
def carriesMedia : ApiDataResult → Bool
  | .media _ => true
  | _ => false

/-- Containment test on character lists, mirroring the Python `in` operator
on strings. -/
def hasSubseq (needle : List Char) : List Char → Bool
  | [] => needle.isEmpty
  | c :: rest => needle.isPrefixOf (c :: rest) || hasSubseq needle rest

/-- Lower-casing as used by `error_message.lower()`. -/
def pyLower (s : String) : List Char :=
  s.data.map Char.toLower

/-- Embeds the error classification in `api_data` (main.py lines 356-359):
quota-style messages feed the backoff as `quota_exceeded`. -/
def quotaLike (msg : String) : Bool :=
  hasSubseq "quota exceeded".data (pyLower msg) || hasSubseq "rate limit".data (pyLower msg)

/-- Embeds `api_data` (main.py lines 316-361) as a function of the persisted
error state, the wall clock, and the outcome of the upstream fetch. Returns
the JSON response shape together with the `error_state.json` contents after
the call. In the skip branch it returns the error/retry_after dict at once,
touching neither the photo fetch nor the cache; an empty batch yields
`{'error': 'No photos available'}` with no state change; a non-empty batch
resets the error state via `record_api_success`; a raised exception is
converted to `{'error': msg}` and recorded via `record_api_error`. -/
def api_data (ef : ErrorFile) (now : Int) (fetch : FetchOutcome) :
    ApiDataResult × ErrorFile :=
  let r := should_skip_due_to_errors ef now
  if r.1 then
    (.skipErr r.2.consecutive_errors (r.2.current_interval - (now - r.2.last_error_time)), ef)
  else
    match fetch with
    | .returns [] => (.noPhotos, ef)
    | .returns photos => (.media photos, .valid record_api_success)
    | .raises msg =>
        (.apiErr msg,
         .valid (record_api_error ef now (if quotaLike msg then "quota_exceeded" else "api_error")))

/-- The ErrorState invariant of spec section 3: zero consecutive failures
exactly when the interval sits at the base value. -/
def errorStateInv (s : ErrorState) : Prop :=
  s.consecutive_errors = 0 ↔ s.current_interval = DEFAULT_REFRESH_INTERVAL

end GooglePhotos

namespace GooglePhotos

/-- The backoff interval formula caps at 3600 seconds from the fourth failure
on. -/
lemma interval_cap_of_four_le {m : Nat} (hm : 4 ≤ m) :
    min ((300 : Int) * 2 ^ m) 3600 = 3600 := by
  have h16 : (2 : Int) ^ 4 ≤ 2 ^ m := pow_le_pow_right₀ (by norm_num) hm
  have hbig : (3600 : Int) ≤ 300 * 2 ^ m := by nlinarith
  exact min_eq_right hbig

/-- The state component returned by `should_skip_due_to_errors` is exactly the
loaded error state, in every branch. -/
lemma snd_should_skip (ef : ErrorFile) (now : Int) :
    (should_skip_due_to_errors ef now).2 = load_error_state ef := by
  simp only [should_skip_due_to_errors]
  split_ifs <;> rfl

end GooglePhotos

namespace GooglePhotos

/-- Doubling from a positive exponent keeps the interval formula at or above
600 seconds. -/
lemma interval_min_ge_600 (c : Nat) :
    (600 : Int) ≤ min (300 * 2 ^ (c + 1)) 3600 := by
  have h2 : (2 : Int) ^ 1 ≤ 2 ^ (c + 1) := pow_le_pow_right₀ (by norm_num) (by omega)
  have : (600 : Int) ≤ 300 * 2 ^ (c + 1) := by nlinarith
  exact le_min this (by norm_num)

/-- C1 counterexample: immediately after a single `record_api_error` from a
clean state, the specification formula `consecutiveFailures >= 1 and
now - lastFailureAt < currentIntervalSeconds` holds, yet
`should_skip_due_to_errors` returns false, because the source only skips once
`consecutive_errors` reaches `MAX_CONSECUTIVE_ERRORS = 10`. -/
theorem c1_counterexample :
    specShouldSkip (record_api_error .absent 100 "api_error") 100 = true ∧
    (should_skip_due_to_errors (.valid (record_api_error .absent 100 "api_error")) 100).1
      = false := by
  decide

/-- C1 (amended): for every persisted backoff state and every current time,
`should_skip_due_to_errors` returns true if and only if
`consecutive_errors >= MAX_CONSECUTIVE_ERRORS` (= 10) and
`now - last_error_time < current_interval`; in particular it is false after
fewer than 10 consecutive failures, and false again once the interval has
elapsed with no further calls. -/
theorem c1_should_skip_iff (s : ErrorState) (now : Int) :
    (should_skip_due_to_errors (.valid s) now).1 = true ↔
      (MAX_CONSECUTIVE_ERRORS ≤ s.consecutive_errors ∧
        now - s.last_error_time < s.current_interval) := by
  simp only [should_skip_due_to_errors, load_error_state]
  split_ifs with h0 h1
  · simp only [Bool.false_eq_true, false_iff]
    intro h
    rw [h0] at h
    exact absurd h.1 (by decide)
  · simpa using h1
  · simpa using h1

/-- C1 witness: a state with 10 consecutive failures inside its interval is
skipped. -/
theorem c1_witness :
    (should_skip_due_to_errors (.valid ⟨10, 0, 3600, none⟩) 5).1 = true :=
  (c1_should_skip_iff ⟨10, 0, 3600, none⟩ 5).2 (by decide)

/-- C3: starting from a clean state, after `n` consecutive `record_api_error`
calls (at arbitrary times `ts`), `consecutive_errors = n` and
`current_interval = min(300 * 2 ^ n, 3600)`; hence after 4 calls the interval
is the 3600-second cap and for every `n >= 4` (in particular 10 or more) it
is still exactly 3600 — the interval plateaus and never grows past the cap. -/
theorem c3_backoff_growth (ts : Nat → Int) (n : Nat) :
    (afterFailures ts n).consecutive_errors = n ∧
    (afterFailures ts n).current_interval = min (300 * 2 ^ n) 3600 ∧
    (4 ≤ n → (afterFailures ts n).current_interval = 3600) := by
  have main : ∀ m, (afterFailures ts m).consecutive_errors = m ∧
      (afterFailures ts m).current_interval = min ((300 : Int) * 2 ^ m) 3600 := by
    intro m
    induction m with
    | zero =>
      refine ⟨rfl, ?_⟩
      show DEFAULT_REFRESH_INTERVAL = min ((300 : Int) * 2 ^ 0) 3600
      norm_num [DEFAULT_REFRESH_INTERVAL]
    | succ k ih =>
      refine ⟨?_, ?_⟩
      · simp [afterFailures, record_api_error, load_error_state, ih.1]
      · by_cases hk : k + 1 ≤ MAX_CONSECUTIVE_ERRORS
        · simp [afterFailures, record_api_error, load_error_state, ih.1, hk,
            DEFAULT_REFRESH_INTERVAL, ERROR_BACKOFF_MULTIPLIER, MAX_REFRESH_INTERVAL]
        · have hk4 : 4 ≤ k := by
            simp only [MAX_CONSECUTIVE_ERRORS] at hk
            omega
          have h1 : (afterFailures ts k).current_interval = 3600 :=
            ih.2.trans (interval_cap_of_four_le hk4)
          have h2 : min ((300 : Int) * 2 ^ (k + 1)) 3600 = 3600 :=
            interval_cap_of_four_le (by omega)
          simp [afterFailures, record_api_error, load_error_state, ih.1, hk, h1, h2]
  exact ⟨(main n).1, (main n).2,
    fun h4 => (main n).2.trans (interval_cap_of_four_le h4)⟩

/-- C3 witness: after exactly 4 failures the interval is capped at 3600. -/
theorem c3_witness :
    (afterFailures (fun _ => 0) 4).current_interval = 3600 ∧
    (afterFailures (fun _ => 0) 10).current_interval = 3600 :=
  ⟨(c3_backoff_growth (fun _ => 0) 4).2.2 (by decide),
   (c3_backoff_growth (fun _ => 0) 10).2.2 (by decide)⟩

/-- C4: the invariant `consecutive_errors = 0` iff
`current_interval = DEFAULT_REFRESH_INTERVAL` holds in the default state
loaded when no file exists, holds for the reset state written by
`record_api_success` (after any number of prior failures, since the reset
ignores the previous state), and is preserved by `record_api_error`. -/
theorem c4_invariant_preserved :
    errorStateInv (load_error_state .absent) ∧
    errorStateInv record_api_success ∧
    ∀ (s : ErrorState) (now : Int) (k : String),
      errorStateInv s → errorStateInv (record_api_error (.valid s) now k) := by
  refine ⟨by constructor <;> intro <;> rfl, by constructor <;> intro <;> rfl, ?_⟩
  intro s now k h
  unfold errorStateInv at h ⊢
  simp only [record_api_error, load_error_state, DEFAULT_REFRESH_INTERVAL,
    ERROR_BACKOFF_MULTIPLIER, MAX_REFRESH_INTERVAL]
  constructor
  · intro hc
    exact absurd hc (by omega)
  · intro hi
    exfalso
    by_cases hk : s.consecutive_errors + 1 ≤ MAX_CONSECUTIVE_ERRORS
    · rw [if_pos hk] at hi
      have := interval_min_ge_600 s.consecutive_errors
      rw [hi] at this
      norm_num at this
    · rw [if_neg hk] at hi
      have hc0 : s.consecutive_errors ≠ 0 := by
        simp only [MAX_CONSECUTIVE_ERRORS] at hk
        omega
      exact hc0 (h.2 hi)

/-- C4 witness: the invariant survives a failure recorded on top of the reset
state. -/
theorem c4_witness :
    errorStateInv (record_api_error (.valid record_api_success) 7 "quota_exceeded") :=
  c4_invariant_preserved.2.2 record_api_success 7 "quota_exceeded"
    ⟨fun _ => rfl, fun _ => rfl⟩

/-- C5: after `save_cache v` at time `t0`, a `load_cache` with TTL `ttl` at
any time `t` strictly inside the TTL window returns the stored value, and a
`load_cache` at any time with `t0 + ttl < t` returns `none` — an expired
entry is treated as missing, never returned stale. -/
theorem c5_cache_freshness {α : Type} (v : α) (t0 ttl t : Int) :
    (0 ≤ t - t0 → t - t0 < ttl →
      load_cache ttl (save_cache v t0) t = some (v, some t0)) ∧
    (t0 + ttl < t → load_cache ttl (save_cache v t0) t = none) := by
  constructor
  · intro _ h1
    simp [load_cache, save_cache, h1]
  · intro h
    have h2 : ¬(t - t0 < ttl) := by omega
    simp [load_cache, save_cache, h2]

/-- C5 witness: the P4 scenario — put at t=0 with ttl=10, hit at t=9, miss at
t=11. -/
theorem c5_witness :
    load_cache 10 (save_cache (7 : Nat) 0) 9 = some (7, some 0) ∧
    load_cache 10 (save_cache (7 : Nat) 0) 11 = none :=
  ⟨(c5_cache_freshness 7 0 10 9).1 (by decide) (by decide),
   (c5_cache_freshness 7 0 10 11).2 (by decide)⟩

/-- Concrete backoff state in which the source decides to skip: 10
consecutive failures, last one at t=1000, interval at the 3600 cap. -/
def skipState : ErrorState := ⟨10, 1000, 3600, some "quota_exceeded"⟩

/-- C2 counterexample: with the backoff in skip mode and a last-known-good
value present in the cache store, `api_data` returns the bare
`{'error': ..., 'retry_after': ...}` dict, which carries no cached media at
all — not the cached value plus a degraded indicator (the function does not
even read the photo cache in this branch). -/
theorem c2_counterexample :
    (should_skip_due_to_errors (.valid skipState) 1000).1 = true ∧
    load_cache CACHE_EXPIRY (save_cache ("cached-photo" : Photo) 900) 1000
      = some ("cached-photo", some 900) ∧
    api_data (.valid skipState) 1000 (.returns ["fresh-photo"])
      = (.skipErr 10 3600, .valid skipState) ∧
    carriesMedia (.skipErr 10 3600) = false := by
  decide

/-- C2 (amended): whenever `should_skip_due_to_errors` reports true,
`api_data` returns immediately — without attempting a fetch — with the
`{'error': ..., 'retry_after': interval - (now - lastFailure)}` object and
leaves the persisted error state unchanged; the response carries no media, in
particular not the last-known-good cached value. -/
theorem c2_skip_returns_error_only (ef : ErrorFile) (now : Int) (fetch : FetchOutcome)
    (h : (should_skip_due_to_errors ef now).1 = true) :
    api_data ef now fetch =
      (.skipErr (load_error_state ef).consecutive_errors
        ((load_error_state ef).current_interval -
          (now - (load_error_state ef).last_error_time)), ef) ∧
    carriesMedia (api_data ef now fetch).1 = false := by
  have hmain : api_data ef now fetch =
      (.skipErr (load_error_state ef).consecutive_errors
        ((load_error_state ef).current_interval -
          (now - (load_error_state ef).last_error_time)), ef) := by
    simp [api_data, h, snd_should_skip]
  exact ⟨hmain, by rw [hmain]; rfl⟩

/-- C2 witness: in skip mode with 500 seconds elapsed, the response is the
retry-after object, with no media. -/
theorem c2_witness :
    api_data (.valid skipState) 1500 (.returns ["fresh-photo"])
      = (.skipErr 10 3100, .valid skipState) ∧
    carriesMedia (api_data (.valid skipState) 1500 (.returns ["fresh-photo"])).1 = false :=
  c2_skip_returns_error_only (.valid skipState) 1500 (.returns ["fresh-photo"]) (by decide)

/-- C10: reading the persisted backoff state is total — a missing, unreadable
or invalid-JSON `error_state.json` loads as the default state (zero
consecutive failures, 300-second base interval, no last error), skip checks
on corrupt persistence report false, and `record_api_error` on corrupt
persistence behaves like a first failure (count 1, interval 600). -/
theorem c10_load_error_state_total :
    load_error_state .absent = ⟨0, 0, 300, none⟩ ∧
    load_error_state .unreadable = ⟨0, 0, 300, none⟩ ∧
    load_error_state .invalidJson = ⟨0, 0, 300, none⟩ ∧
    DEFAULT_REFRESH_INTERVAL = 300 ∧
    (∀ now, (should_skip_due_to_errors .invalidJson now).1 = false) ∧
    (∀ now, (should_skip_due_to_errors .unreadable now).1 = false) ∧
    (∀ now, record_api_error .invalidJson now "api_error"
      = ⟨1, now, 600, some "api_error"⟩) := by
  refine ⟨rfl, rfl, rfl, rfl, fun now => rfl, fun now => rfl, fun now => ?_⟩
  simp [record_api_error, load_error_state, DEFAULT_REFRESH_INTERVAL,
    ERROR_BACKOFF_MULTIPLIER, MAX_REFRESH_INTERVAL, MAX_CONSECUTIVE_ERRORS]

end GooglePhotos

namespace Backend

/-- Opaque JSON-serializable value returned by a handler; the claims under
verification never inspect the internal structure of a successful payload, so
leaf values suffice (strings are character lists, matching the path
machinery). -/
inductive Json where
  | null
  | bool (b : Bool)
  | num (n : Int)
  | str (s : List Char)
deriving DecidableEq

/-- A response body written by the dispatcher: either the serialized handler
payload (run.py line 203) or the serialized one-key dict `{'error': msg}`
used by both the 404 and the 500 branches (run.py lines 212-214 and
223-225). -/
inductive Body where
  | payload (j : Json)
  | errObj (msg : List Char)
deriving DecidableEq

/-- Observable behavior of a plugin `api_<endpoint>` function when invoked by
the dispatcher (run.py lines 188-198): it either returns a JSON-serializable
result or raises an exception with a message. The signature dance (calling
with or without the query dict, and the retry on ValueError/TypeError) does
not change which of the two outcomes a deterministic handler produces. -/
inductive HandlerBehavior where
  | returns (result : Json)
  | raises (msg : List Char)
deriving DecidableEq

/-- A plugin `main.py` on disk as the dispatcher sees it: executing the module
may itself raise (run.py line 182, caught by the same except block), and the
module exposes named `api_...` attributes. -/
structure PluginModule where
  importRaises : Option (List Char)
  handlers : List (List Char × HandlerBehavior)
deriving DecidableEq

/-- The plugin directories on disk: an association from plugin name to the
module found at `<plugin>/main.py`, absent when that file does not exist. -/
abbrev PluginsFS := List (List Char × PluginModule)

/-- Python `str.strip(c)`: removes every leading and trailing occurrence of
the character (used as `path.strip('/')`, run.py line 165). -/
def pyStrip (c : Char) (s : List Char) : List Char :=
  ((s.dropWhile (· == c)).reverse.dropWhile (· == c)).reverse

/-- Embeds `path.strip('/').split('/')` (run.py line 165); `List.splitOn`
agrees with Python `str.split` on a one-character separator, empty segments
included. -/
def pathParts (path : List Char) : List (List Char) :=
  (pyStrip '/' path).splitOn '/'

/-- The 404 body `{'error': f"Plugin API endpoint not found: {path}"}`
(run.py lines 212-214): it echoes the request path. -/
def notFoundBody (path : List Char) : Body :=
  .errObj ("Plugin API endpoint not found: ".data ++ path)

/-- The 500 body `{'error': str(e)}` (run.py lines 223-225). -/
def errorBody (msg : List Char) : Body :=
  .errObj msg

/-- Embeds the body of the API branch of `KioskHTTPRequestHandler.do_GET`
(run.py lines 172-226) once `plugin_name` and `endpoint` have been parsed:
if `<plugin>/main.py` is missing or lacks an `api_<endpoint>` attribute the
response is the 404 JSON error; if executing the module or calling the
handler raises, the surrounding except block produces the 500 JSON error;
otherwise the handler result is returned with status 200. Note that the
response is a total function of the inputs — no exception escapes — and that
neither the enabled-plugins allow-list nor any lifecycle state is consulted. -/
def handlerOutcome (path : List Char) (m : PluginModule) (ep : List Char) : Nat × Body :=
  match m.importRaises with
  | some msg => (500, errorBody msg)
  | none =>
    match m.handlers.lookup ("api_".data ++ ep) with
    | some (.returns result) => (200, .payload result)
    | some (.raises msg) => (500, errorBody msg)
    | none => (404, notFoundBody path)

/-- Resolution step of the same branch: a missing `<plugin>/main.py` falls
through to the 404 response. -/
def dispatchCore (fs : PluginsFS) (path name ep : List Char) : Nat × Body :=
  match fs.lookup name with
  | none => (404, notFoundBody path)
  | some m => handlerOutcome path m ep

/-- Embeds the routing of `do_GET` for `/api/` URLs (run.py lines 164-168):
`parts = path.strip('/').split('/')`; the request is an API request when
`len(parts) >= 3 and parts[0] == 'api' and parts[1] == 'plugins'`, the plugin
name is `parts[2]` and the endpoint defaults to `'data'` when the path has no
fourth segment. `none` means the request falls through to static-file
serving. The handler keeps the enabled-plugins list from `self.config`
available, but the API branch never reads it — hence the underscore. -/
def handleApi (_enabledPlugins : List (List Char)) (fs : PluginsFS) (path : List Char) :
    Option (Nat × Body) :=
  if path.take 5 = "/api/".data then
    if 3 ≤ (pathParts path).length ∧ (pathParts path).getD 0 [] = "api".data ∧
        (pathParts path).getD 1 [] = "plugins".data then
      some (dispatchCore fs path ((pathParts path).getD 2 [])
        (if 3 < (pathParts path).length then (pathParts path).getD 3 [] else "data".data))
    else
      none
  else
    none

end Backend

namespace Backend

/-- Stripping trailing separator characters from a list that ends in a
nonempty slash-free suffix leaves the list unchanged. -/
lemma strip_tail_eq (l p : List Char) (hp : p ≠ []) (hs : '/' ∉ p) :
    ((l ++ p).reverse.dropWhile (· == '/')).reverse = l ++ p := by
  obtain ⟨b, bs, hrev⟩ :=
    List.exists_cons_of_ne_nil (show p.reverse ≠ [] by simpa using hp)
  have hb : b ∈ p := by
    have h1 : b ∈ p.reverse := by rw [hrev]; exact List.mem_cons_self b bs
    simpa using h1
  have hbq : ¬((b == '/') = true) := by
    simp only [beq_iff_eq]
    intro h
    exact hs (h ▸ hb)
  rw [List.reverse_append, hrev, List.cons_append, List.dropWhile_cons, if_neg hbq,
    ← List.cons_append, ← hrev, ← List.reverse_append, List.reverse_reverse]

/-- A single trailing slash after a slash-free suffix is stripped. -/
lemma strip_tail_slash (l p : List Char) (hp : p ≠ []) (hs : '/' ∉ p) :
    ((l ++ p ++ ['/']).reverse.dropWhile (· == '/')).reverse = l ++ p := by
  have h1 : (l ++ p ++ ['/']).reverse = '/' :: (l ++ p).reverse := by
    rw [List.reverse_append]
    rfl
  rw [h1, List.dropWhile_cons_of_pos (by rfl)]
  exact strip_tail_eq l p hp hs

/-- Stripping `/api/plugins/<p>` removes exactly the leading slash. -/
lemma pyStrip_api (p : List Char) (hp : p ≠ []) (hs : '/' ∉ p) :
    pyStrip '/' ("/api/plugins/".data ++ p) = "api/plugins/".data ++ p := by
  show ((("/api/plugins/".data ++ p).dropWhile (· == '/')).reverse.dropWhile
      (· == '/')).reverse = _
  have h1 : ("/api/plugins/".data ++ p).dropWhile (· == '/')
      = "api/plugins/".data ++ p := rfl
  rw [h1]
  exact strip_tail_eq "api/plugins/".data p hp hs

/-- Stripping `/api/plugins/<p>/` removes the leading and the trailing
slash. -/
lemma pyStrip_api_slash (p : List Char) (hp : p ≠ []) (hs : '/' ∉ p) :
    pyStrip '/' ("/api/plugins/".data ++ p ++ ['/']) = "api/plugins/".data ++ p := by
  show ((("/api/plugins/".data ++ p ++ ['/']).dropWhile (· == '/')).reverse.dropWhile
      (· == '/')).reverse = _
  have h1 : ("/api/plugins/".data ++ p ++ ['/']).dropWhile (· == '/')
      = "api/plugins/".data ++ p ++ ['/'] := rfl
  rw [h1]
  exact strip_tail_slash "api/plugins/".data p hp hs

/-- Stripping `/api/plugins/<p>/data` removes exactly the leading slash. -/
lemma pyStrip_api_data (p : List Char) :
    pyStrip '/' ("/api/plugins/".data ++ p ++ "/data".data)
      = "api/plugins/".data ++ p ++ "/data".data := by
  show ((("/api/plugins/".data ++ p ++ "/data".data).dropWhile (· == '/')).reverse.dropWhile
      (· == '/')).reverse = _
  have h1 : ("/api/plugins/".data ++ p ++ "/data".data).dropWhile (· == '/')
      = "api/plugins/".data ++ p ++ "/data".data := rfl
  rw [h1]
  have h2 := strip_tail_eq ("api/plugins/".data ++ p ++ ['/']) "data".data
    (by decide) (by decide)
  have hassoc : ("api/plugins/".data ++ p ++ ['/']) ++ "data".data
      = "api/plugins/".data ++ p ++ "/data".data := by
    rw [List.append_assoc ("api/plugins/".data ++ p)]
    rfl
  rw [hassoc] at h2
  exact h2

/-- Splitting `api/plugins/<p>` on the slash yields the three segments. -/
lemma parts_three (p : List Char) (hs : '/' ∉ p) :
    ("api/plugins/".data ++ p).splitOn '/' = ["api".data, "plugins".data, p] := by
  have hApi : ∀ x ∈ "api".data, ¬((x == '/') = true) := by decide
  have hPlug : ∀ x ∈ "plugins".data, ¬((x == '/') = true) := by decide
  have hP : ∀ x ∈ p, ¬((x == '/') = true) := by
    intro x hx h
    exact hs ((eq_of_beq h) ▸ hx)
  have hshape : "api/plugins/".data ++ p
      = "api".data ++ '/' :: ("plugins".data ++ '/' :: p) := rfl
  show ("api/plugins/".data ++ p).splitOnP (· == '/') = _
  rw [hshape, List.splitOnP_first _ _ hApi '/' rfl, List.splitOnP_first _ _ hPlug '/' rfl,
    List.splitOnP_eq_single _ _ hP]

/-- Splitting `api/plugins/<p>/data` on the slash yields the four segments. -/
lemma parts_four (p : List Char) (hs : '/' ∉ p) :
    ("api/plugins/".data ++ p ++ "/data".data).splitOn '/'
      = ["api".data, "plugins".data, p, "data".data] := by
  have hApi : ∀ x ∈ "api".data, ¬((x == '/') = true) := by decide
  have hPlug : ∀ x ∈ "plugins".data, ¬((x == '/') = true) := by decide
  have hData : ∀ x ∈ "data".data, ¬((x == '/') = true) := by decide
  have hP : ∀ x ∈ p, ¬((x == '/') = true) := by
    intro x hx h
    exact hs ((eq_of_beq h) ▸ hx)
  have hshape : "api/plugins/".data ++ p ++ "/data".data
      = "api".data ++ '/' :: ("plugins".data ++ '/' :: (p ++ '/' :: "data".data)) := by
    rw [List.append_assoc ("api/plugins/".data) p]
    rfl
  show ("api/plugins/".data ++ p ++ "/data".data).splitOnP (· == '/') = _
  rw [hshape, List.splitOnP_first _ _ hApi '/' rfl, List.splitOnP_first _ _ hPlug '/' rfl,
    List.splitOnP_first _ _ hP '/' rfl, List.splitOnP_eq_single _ _ hData]

/-- The parsed segments of `/api/plugins/<p>`. -/
lemma pathParts_noep (p : List Char) (hp : p ≠ []) (hs : '/' ∉ p) :
    pathParts ("/api/plugins/".data ++ p) = ["api".data, "plugins".data, p] := by
  unfold pathParts
  rw [pyStrip_api p hp hs]
  exact parts_three p hs

/-- The parsed segments of `/api/plugins/<p>/` — the trailing slash is
stripped, so the endpoint segment is absent. -/
lemma pathParts_slash (p : List Char) (hp : p ≠ []) (hs : '/' ∉ p) :
    pathParts ("/api/plugins/".data ++ p ++ ['/']) = ["api".data, "plugins".data, p] := by
  unfold pathParts
  rw [pyStrip_api_slash p hp hs]
  exact parts_three p hs

/-- The parsed segments of `/api/plugins/<p>/data`. -/
lemma pathParts_data (p : List Char) (hs : '/' ∉ p) :
    pathParts ("/api/plugins/".data ++ p ++ "/data".data)
      = ["api".data, "plugins".data, p, "data".data] := by
  unfold pathParts
  rw [pyStrip_api_data p]
  exact parts_four p hs

end Backend

namespace Backend

/-- The HTTP status of a dispatch outcome does not depend on the request path:
the path only appears inside the 404 message body. -/
lemma dispatchCore_fst (fs : PluginsFS) (path path2 name ep : List Char) :
    (dispatchCore fs path name ep).1 = (dispatchCore fs path2 name ep).1 := by
  unfold dispatchCore
  cases hl : fs.lookup name with
  | none => rfl
  | some m =>
    show (handlerOutcome path m ep).1 = (handlerOutcome path2 m ep).1
    unfold handlerOutcome
    cases hr : m.importRaises with
    | some msg => rfl
    | none =>
      cases hh : m.handlers.lookup ("api_".data ++ ep) with
      | none => rfl
      | some b => cases b <;> rfl

/-- Off the 404 branch the entire dispatch outcome is path-independent. -/
lemma dispatchCore_indep (fs : PluginsFS) (path path2 name ep : List Char)
    (h : (dispatchCore fs path name ep).1 ≠ 404) :
    dispatchCore fs path name ep = dispatchCore fs path2 name ep := by
  unfold dispatchCore at h ⊢
  cases hl : fs.lookup name with
  | none =>
    rw [hl] at h
    exact absurd rfl h
  | some m =>
    rw [hl] at h
    show handlerOutcome path m ep = handlerOutcome path2 m ep
    have h2 : (handlerOutcome path m ep).1 ≠ 404 := h
    unfold handlerOutcome at h2 ⊢
    cases hr : m.importRaises with
    | some msg => rfl
    | none =>
      rw [hr] at h2
      cases hh : m.handlers.lookup ("api_".data ++ ep) with
      | none =>
        rw [hh] at h2
        exact absurd rfl h2
      | some b => cases b <;> rfl

/-- Evaluation of the request handler on `/api/plugins/<p>`: the endpoint
defaults to `data`. -/
lemma handleApi_noep (e : List (List Char)) (fs : PluginsFS) (p : List Char)
    (hp : p ≠ []) (hs : '/' ∉ p) :
    handleApi e fs ("/api/plugins/".data ++ p)
      = some (dispatchCore fs ("/api/plugins/".data ++ p) p "data".data) := by
  unfold handleApi
  rw [pathParts_noep p hp hs,
    if_pos (show ("/api/plugins/".data ++ p).take 5 = "/api/".data from rfl),
    if_pos (show (3:Nat) ≤ (["api".data, "plugins".data, p]).length ∧
      (["api".data, "plugins".data, p]).getD 0 [] = "api".data ∧
      (["api".data, "plugins".data, p]).getD 1 [] = "plugins".data from ⟨by simp, rfl, rfl⟩),
    if_neg (show ¬(3:Nat) < (["api".data, "plugins".data, p]).length by simp)]
  rfl

/-- Evaluation of the request handler on `/api/plugins/<p>/`: the trailing
slash is stripped, so the endpoint again defaults to `data`. -/
lemma handleApi_slash (e : List (List Char)) (fs : PluginsFS) (p : List Char)
    (hp : p ≠ []) (hs : '/' ∉ p) :
    handleApi e fs ("/api/plugins/".data ++ p ++ ['/'])
      = some (dispatchCore fs ("/api/plugins/".data ++ p ++ ['/']) p "data".data) := by
  unfold handleApi
  rw [pathParts_slash p hp hs,
    if_pos (show ("/api/plugins/".data ++ p ++ ['/']).take 5 = "/api/".data from rfl),
    if_pos (show (3:Nat) ≤ (["api".data, "plugins".data, p]).length ∧
      (["api".data, "plugins".data, p]).getD 0 [] = "api".data ∧
      (["api".data, "plugins".data, p]).getD 1 [] = "plugins".data from ⟨by simp, rfl, rfl⟩),
    if_neg (show ¬(3:Nat) < (["api".data, "plugins".data, p]).length by simp)]
  rfl

/-- Evaluation of the request handler on the explicit `/api/plugins/<p>/data`
path. -/
lemma handleApi_data (e : List (List Char)) (fs : PluginsFS) (p : List Char)
    (hs : '/' ∉ p) :
    handleApi e fs ("/api/plugins/".data ++ p ++ "/data".data)
      = some (dispatchCore fs ("/api/plugins/".data ++ p ++ "/data".data) p "data".data) := by
  unfold handleApi
  rw [pathParts_data p hs,
    if_pos (show ("/api/plugins/".data ++ p ++ "/data".data).take 5 = "/api/".data from rfl),
    if_pos (show (3:Nat) ≤ (["api".data, "plugins".data, p, "data".data]).length ∧
      (["api".data, "plugins".data, p, "data".data]).getD 0 [] = "api".data ∧
      (["api".data, "plugins".data, p, "data".data]).getD 1 [] = "plugins".data
      from ⟨by simp, rfl, rfl⟩),
    if_pos (show (3:Nat) < (["api".data, "plugins".data, p, "data".data]).length by simp)]
  rfl

end Backend

namespace Backend

/-- C9 counterexample: for an unknown plugin the two requests do not produce
literally identical outcomes — both are 404, but the not-found body echoes the
request path, which differs. -/
theorem c9_counterexample :
    handleApi [] [] "/api/plugins/nosuch".data
      ≠ handleApi [] [] "/api/plugins/nosuch/data".data := by
  decide

/-- C9 (amended): a request with the endpoint omitted (`/api/plugins/<p>`) or
empty (`/api/plugins/<p>/`, whose endpoint segment is stripped away) resolves
to the same plugin `p` and the default endpoint `data` as the explicit
`/api/plugins/<p>/data` request; the resulting HTTP status is always the
same, and the whole outcome (status and body) coincides whenever the route
resolves — the outcomes differ only in the request path echoed inside the
404 not-found message. Quantified over every plugin name (any nonempty
slash-free segment) and every plugin filesystem. -/
theorem c9_default_endpoint (e : List (List Char)) (fs : PluginsFS) (p : List Char)
    (hp : p ≠ []) (hs : '/' ∉ p) :
    handleApi e fs ("/api/plugins/".data ++ p)
      = some (dispatchCore fs ("/api/plugins/".data ++ p) p "data".data) ∧
    handleApi e fs ("/api/plugins/".data ++ p ++ ['/'])
      = some (dispatchCore fs ("/api/plugins/".data ++ p ++ ['/']) p "data".data) ∧
    handleApi e fs ("/api/plugins/".data ++ p ++ "/data".data)
      = some (dispatchCore fs ("/api/plugins/".data ++ p ++ "/data".data) p "data".data) ∧
    (∀ path path2, (dispatchCore fs path p "data".data).1
      = (dispatchCore fs path2 p "data".data).1) ∧
    (∀ path path2, (dispatchCore fs path p "data".data).1 ≠ 404 →
      dispatchCore fs path p "data".data = dispatchCore fs path2 p "data".data) :=
  ⟨handleApi_noep e fs p hp hs, handleApi_slash e fs p hp hs, handleApi_data e fs p hs,
   fun path path2 => dispatchCore_fst fs path path2 p "data".data,
   fun path path2 h => dispatchCore_indep fs path path2 p "data".data h⟩

/-- C9 witness: for an existing plugin the bare path and the explicit data
path give the identical successful outcome. -/
theorem c9_witness :
    handleApi [] [("weather".data, ⟨none, [("api_data".data, .returns (.num 1))]⟩)]
        ("/api/plugins/".data ++ "weather".data)
      = some (200, .payload (.num 1)) ∧
    handleApi [] [("weather".data, ⟨none, [("api_data".data, .returns (.num 1))]⟩)]
        ("/api/plugins/".data ++ "weather".data ++ "/data".data)
      = some (200, .payload (.num 1)) := by
  have h := c9_default_endpoint []
    [("weather".data, ⟨none, [("api_data".data, .returns (.num 1))]⟩)]
    "weather".data (by decide) (by decide)
  refine ⟨?_, ?_⟩
  · rw [h.1]
    decide
  · rw [h.2.2.1]
    decide

/-- C6 counterexample: a plugin that is present on disk but absent from the
enabled-plugins allow-list (here the empty allow-list) is still served with
HTTP 200, not 404 — dispatch never consults the allow-list, and there is no
lifecycle state to consult. -/
theorem c6_counterexample :
    handleApi [] [("photos".data, ⟨none, [("api_data".data, .returns (.str "ok".data))]⟩)]
        "/api/plugins/photos".data
      = some (200, .payload (.str "ok".data)) ∧
    ¬("photos".data ∈ ([] : List (List Char))) := by
  refine ⟨by decide, ?_⟩
  simp

/-- C6 (amended): dispatch of an API request is a total function into
`(status, JSON body)` — no exception escapes. A plugin with no `main.py`
yields the 404 JSON error body, as does a present module lacking the
requested `api_<endpoint>` attribute; and the outcome is entirely
independent of the enabled-plugins allow-list (there is no lifecycle state),
so disabled-but-present plugins are served rather than 404ed. -/
theorem c6_unknown_not_found (e e2 : List (List Char)) (fs : PluginsFS)
    (path name ep : List Char) :
    (fs.lookup name = none →
      dispatchCore fs path name ep = (404, notFoundBody path)) ∧
    (∀ m, fs.lookup name = some m → m.importRaises = none →
      m.handlers.lookup ("api_".data ++ ep) = none →
      dispatchCore fs path name ep = (404, notFoundBody path)) ∧
    handleApi e fs path = handleApi e2 fs path := by
  refine ⟨?_, ?_, rfl⟩
  · intro h
    unfold dispatchCore
    rw [h]
  · intro m h1 h2 h3
    unfold dispatchCore
    rw [h1]
    show handlerOutcome path m ep = _
    unfold handlerOutcome
    rw [h2, h3]

/-- C6 witness: the P3 scenario — dispatching a plugin that does not exist
returns the 404 JSON error outcome. -/
theorem c6_witness :
    dispatchCore [] "/api/plugins/doesNotExist".data "doesNotExist".data "data".data
      = (404, notFoundBody "/api/plugins/doesNotExist".data) :=
  (c6_unknown_not_found [] [] [] "/api/plugins/doesNotExist".data
    "doesNotExist".data "data".data).1 rfl

/-- C7: when the module loads and the `api_<endpoint>` handler raises an
exception with message `msg`, the dispatcher catches it and returns exactly
the 500 outcome with body `{'error': msg}` — the exception does not
propagate (the result is a value, not a fault) and the body is the one-key
error object carrying the message, never a stack trace. -/
theorem c7_handler_exception (fs : PluginsFS) (path name ep msg : List Char)
    (m : PluginModule) (h1 : fs.lookup name = some m) (h2 : m.importRaises = none)
    (h3 : m.handlers.lookup ("api_".data ++ ep) = some (.raises msg)) :
    dispatchCore fs path name ep = (500, Body.errObj msg) := by
  unfold dispatchCore
  rw [h1]
  show handlerOutcome path m ep = _
  unfold handlerOutcome
  rw [h2, h3]
  rfl

/-- C7 witness: a concrete raising handler produces the 500 error-object
outcome. -/
theorem c7_witness :
    dispatchCore [("boom".data, ⟨none, [("api_data".data, .raises "kaput".data)]⟩)]
        "/api/plugins/boom".data "boom".data "data".data
      = (500, Body.errObj "kaput".data) :=
  c7_handler_exception [("boom".data, ⟨none, [("api_data".data, .raises "kaput".data)]⟩)]
    "/api/plugins/boom".data "boom".data "data".data "kaput".data
    ⟨none, [("api_data".data, .raises "kaput".data)]⟩ (by decide) rfl (by decide)

end Backend

namespace PluginLoader

/-- Outcome of the optional `setup` attribute of a plugin module as observed
by the `Plugin.setup` wrapper (plugin_loader.py lines 35-45): the hook may be
absent, may raise, or may return a value — whose truthiness the wrapper
ignores, so only the returned/raised distinction matters, plus the returned
value itself for stating claims about it. -/
inductive SetupOutcome where
  | absentHook
  | raises
  | returns (value : Bool)
deriving DecidableEq

/-- A successfully imported plugin module, reduced to its setup behavior
(the other optional hooks play no role in loading). -/
structure ModuleInfo where
  setup : SetupOutcome
deriving DecidableEq

/-- One entry of `os.listdir(plugins_dir)` (plugin_loader.py line 151): its
name, whether it is a directory, and the module `load_plugin_module` produces
for it — `none` when `__init__.py` is missing or importing raises (lines
77-124). -/
structure DirEntry where
  name : String
  isDir : Bool
  module : Option ModuleInfo
deriving DecidableEq

/-- A loaded `Plugin` object, reduced to the fields relevant here. -/
structure Plugin where
  name : String
  setup : SetupOutcome
deriving DecidableEq

/-- Python `item.startswith('.')` (plugin_loader.py line 155). -/
def pyHidden (s : String) : Bool :=
  s.data.take 1 = ['.']

/-- Embeds the `Plugin.setup` wrapper (lines 35-45): `None` when the module
has no setup attribute, `False` when calling the hook raised, and `True`
when the call returned — regardless of the value the hook returned. -/
def pluginSetupResult : SetupOutcome → Option Bool
  | .absentHook => none
  | .raises => some false
  | .returns _ => some true

/-- Embeds `load_plugins` (plugin_loader.py lines 126-188): iterates the
directory entries in order, skipping non-directories and hidden names,
names absent from the enabled set, entries whose module fails to load, and
plugins whose setup wrapper result `is False`; every surviving plugin is
appended to the result. -/
def load_plugins (entries : List DirEntry) (enabled : List String) : List Plugin :=
  match entries with
  | [] => []
  | e :: rest =>
    if ¬e.isDir ∨ pyHidden e.name then load_plugins rest enabled
    else if ¬enabled.contains e.name then load_plugins rest enabled
    else
      match e.module with
      | none => load_plugins rest enabled
      | some m =>
        match pluginSetupResult m.setup with
        | some false => load_plugins rest enabled
        | _ => ⟨e.name, m.setup⟩ :: load_plugins rest enabled

/-- The per-entry filter the loader loop implements: an entry contributes a
plugin exactly when it is a non-hidden directory, enabled, its module loads,
and its setup wrapper did not report `False` — that is, its setup hook did
not raise. -/
def keptPlugin (enabled : List String) (e : DirEntry) : Option Plugin :=
  match e.module with
  | none => none
  | some m =>
    if e.isDir ∧ ¬pyHidden e.name ∧ enabled.contains e.name ∧
        pluginSetupResult m.setup ≠ some false then
      some ⟨e.name, m.setup⟩
    else
      none

/-- The loader is the filterMap of the per-entry filter over the directory
listing. -/
lemma load_plugins_eq_filterMap (entries : List DirEntry) (enabled : List String) :
    load_plugins entries enabled = entries.filterMap (keptPlugin enabled) := by
  induction entries with
  | nil => rfl
  | cons e rest ih =>
    rw [List.filterMap_cons]
    simp only [load_plugins]
    by_cases h1 : ¬e.isDir ∨ pyHidden e.name
    · rw [if_pos h1, ih]
      have hk : keptPlugin enabled e = none := by
        unfold keptPlugin
        cases hm : e.module with
        | none => rfl
        | some m =>
          dsimp only
          rw [if_neg]
          intro hc
          obtain ⟨hd, hh, -, -⟩ := hc
          cases h1 with
          | inl h => exact h hd
          | inr h => exact hh h
      rw [hk]
    · rw [if_neg h1]
      push_neg at h1
      obtain ⟨hd, hh⟩ := h1
      by_cases h2 : ¬enabled.contains e.name
      · rw [if_pos h2, ih]
        have hk : keptPlugin enabled e = none := by
          unfold keptPlugin
          cases hm : e.module with
          | none => rfl
          | some m =>
            dsimp only
            rw [if_neg]
            intro hc
            exact h2 hc.2.2.1
        rw [hk]
      · rw [if_neg h2]
        push_neg at h2
        cases hm : e.module with
        | none =>
          dsimp only
          have hk : keptPlugin enabled e = none := by
            unfold keptPlugin
            rw [hm]
          rw [hk, ih]
        | some m =>
          dsimp only
          have hkeep : pluginSetupResult m.setup ≠ some false →
              keptPlugin enabled e = some ⟨e.name, m.setup⟩ := by
            intro hne
            unfold keptPlugin
            rw [hm]
            dsimp only
            rw [if_pos ⟨hd, by simp [hh], h2, hne⟩]
          cases hsr : pluginSetupResult m.setup with
          | none =>
            rw [hkeep (by rw [hsr]; exact Option.noConfusion)]
            dsimp only
            rw [ih]
          | some b =>
            cases b with
            | false =>
              have hk : keptPlugin enabled e = none := by
                unfold keptPlugin
                rw [hm]
                dsimp only
                rw [if_neg]
                intro hc
                exact hc.2.2.2 hsr
              rw [hk]
              dsimp only
              exact ih
            | true =>
              rw [hkeep (by rw [hsr]; simp)]
              dsimp only
              rw [ih]

end PluginLoader

namespace PluginLoader

/-- C8 counterexample: a plugin whose setup hook runs without raising but
returns the failure value `False` is NOT excluded — `Plugin.setup` ignores
the return value of the module hook, so `load_plugins` keeps the plugin.
Here the claim predicts alpha is excluded, yet all three plugins load. -/
theorem c8_counterexample :
    load_plugins
        [⟨"alpha", true, some ⟨.returns false⟩⟩,
         ⟨"beta", true, some ⟨.returns true⟩⟩,
         ⟨"gamma", true, some ⟨.absentHook⟩⟩]
        ["alpha", "beta", "gamma"]
      = [⟨"alpha", .returns false⟩, ⟨"beta", .returns true⟩, ⟨"gamma", .absentHook⟩] ∧
    (⟨"alpha", .returns false⟩ : Plugin) ∈
      load_plugins
        [⟨"alpha", true, some ⟨.returns false⟩⟩,
         ⟨"beta", true, some ⟨.returns true⟩⟩,
         ⟨"gamma", true, some ⟨.absentHook⟩⟩]
        ["alpha", "beta", "gamma"] := by
  decide

/-- C8 (amended): `load_plugins` is a per-entry filter over the directory
listing — a plugin appears in the returned list exactly when its entry is a
non-hidden enabled directory whose module loads and whose setup hook did not
raise; consequently a plugin whose setup raises is excluded while every
other valid enabled plugin is still loaded, and dropping a raising entry
leaves the rest of the load untouched (a failed setup never aborts the
overall load). A setup hook that merely returns a failure value is not
excluded, since only an exception makes the wrapper report failure. -/
theorem c8_setup_isolation (entries : List DirEntry) (enabled : List String) :
    load_plugins entries enabled = entries.filterMap (keptPlugin enabled) ∧
    (∀ pl : Plugin, pl ∈ load_plugins entries enabled ↔
      ∃ e, e ∈ entries ∧ keptPlugin enabled e = some pl) ∧
    (∀ (e : DirEntry) (m : ModuleInfo) (rest : List DirEntry),
      e.module = some m → m.setup = .raises →
      load_plugins (e :: rest) enabled = load_plugins rest enabled) := by
  refine ⟨load_plugins_eq_filterMap entries enabled, ?_, ?_⟩
  · intro pl
    rw [load_plugins_eq_filterMap entries enabled]
    exact List.mem_filterMap
  · intro e m rest hm hsetup
    simp only [load_plugins, hm, hsetup, pluginSetupResult]
    split_ifs <;> rfl

/-- C8 witness: the P1 scenario — a raising setup is skipped, and the healthy
plugin after it still loads. -/
theorem c8_witness :
    load_plugins [⟨"broken", true, some ⟨.raises⟩⟩, ⟨"good", true, some ⟨.absentHook⟩⟩]
        ["broken", "good"]
      = [⟨"good", .absentHook⟩] := by
  rw [(c8_setup_isolation
      [⟨"broken", true, some ⟨.raises⟩⟩, ⟨"good", true, some ⟨.absentHook⟩⟩]
      ["broken", "good"]).2.2
    ⟨"broken", true, some ⟨.raises⟩⟩ ⟨.raises⟩ [⟨"good", true, some ⟨.absentHook⟩⟩] rfl rfl]
  decide

end PluginLoader
